import Mathlib

/-!
Verification of the timed image-composition core of `image_to_video.py`
(`create_video_from_images`).  Pixel dimensions are modelled as integers,
seconds and scale factors as rationals (the Python floats carry exact
decimal values in every construct the program uses).  The moviepy calls
the program relies on are modelled by their documented effect on the two
pieces of clip state the program manipulates: the frame size as a function
of clip-local time, and the composition position.
-/

namespace ImageToVideo

/-- Pixel dimensions of an image or of the canvas (a Python `(w, h)` pair). -/
structure Size where
  w : ℤ
  h : ℤ
deriving DecidableEq

/-- Python `int()` on a rational: truncation toward zero. -/
def pyInt (q : ℚ) : ℤ := if q < 0 then Rat.ceil q else Rat.floor q

/-- Python `min(a, b)`: `a` when `a ≤ b`, else `b`. -/
def pymin (a b : ℚ) : ℚ := if a ≤ b then a else b

/-- Line 37: `ratio = min(resolution[0] / img_w, resolution[1] / img_h)`. -/
def fitScale (nat canvas : Size) : ℚ :=
  pymin ((canvas.w : ℚ) / (nat.w : ℚ)) ((canvas.h : ℚ) / (nat.h : ℚ))

/-- Line 38: `max_size = (int(img_w * ratio), int(img_h * ratio))` —
the scale-to-fit size of an image on the canvas. -/
def fit (nat canvas : Size) : Size :=
  ⟨pyInt ((nat.w : ℚ) * fitScale nat canvas),
   pyInt ((nat.h : ℚ) * fitScale nat canvas)⟩

/-- Line 43: `zoom_factor = lambda t: 0.8 + (0.4 * (t / duration))`. -/
def zoom_factor (duration t : ℚ) : ℚ := 0.8 + 0.4 * (t / duration)

/-- Composition position of a clip.  moviepy clips default to the
top-left corner `(0, 0)`; `set_position('center')` centers the frame. -/
inductive Pos where
  | topLeft
  | center
deriving DecidableEq

/-- The clip state the program manipulates: the displayed frame size as a
function of clip-local time, and the composition position. -/
structure VClip where
  sizeAt : ℚ → ℚ × ℚ
  pos : Pos

/-- Line 30: `ImageClip(img_path)` — frames at the image's natural size,
default position top-left. -/
def imageClip (nat : Size) : VClip :=
  ⟨fun _ => ((nat.w : ℚ), (nat.h : ℚ)), Pos.topLeft⟩

/-- moviepy `clip.resize(f)` with a time-varying factor: the frame at time
`t` is the current frame scaled by `f t` in each dimension. -/
def resizeBy (c : VClip) (f : ℚ → ℚ) : VClip :=
  ⟨fun t => ((c.sizeAt t).1 * f t, (c.sizeAt t).2 * f t), c.pos⟩

/-- moviepy `clip.resize(newsize)` with a fixed `(w, h)`: every frame is
resized to exactly `newsize`, whatever its size was before. -/
def resizeTo (c : VClip) (s : ℤ × ℤ) : VClip :=
  ⟨fun _ => ((s.1 : ℚ), (s.2 : ℚ)), c.pos⟩

/-- moviepy `clip.set_position(p)`. -/
def setPosition (c : VClip) (p : Pos) : VClip := ⟨c.sizeAt, p⟩

/-- Lines 36–50, the per-image transform of the loop body: compute
`max_size` by scale-to-fit; in the `"zoom"` branch apply the time-varying
`zoom_factor` resize, center, then resize to
`display_size = (int(max_size[0]*1.2), int(max_size[1]*1.2))`; in every
other branch resize to `max_size` (position left at its default). -/
def mkVClip (template : String) (canvas : Size) (d : ℚ) (nat : Size) : VClip :=
  let maxSize := fit nat canvas
  if template == "zoom" then
    let zoomed := setPosition (resizeBy (imageClip nat) (zoom_factor d)) Pos.center
    let display : ℤ × ℤ := (pyInt ((maxSize.w : ℚ) * 1.2), pyInt ((maxSize.h : ℚ) * 1.2))
    resizeTo zoomed display
  else
    resizeTo (imageClip nat) (maxSize.w, maxSize.h)

/-- One placed, animated image instance on the timeline. -/
structure Clip where
  sizeAt : ℚ → ℚ × ℚ
  pos : Pos
  start : ℚ
  duration : ℚ

/-- Line 52: `img_clip.set_duration(duration).set_start(i * duration)`
applied to the transformed clip of matched-file index `i`. -/
def mkClip (template : String) (canvas : Size) (d : ℚ) (i : ℕ) (nat : Size) : Clip :=
  let v := mkVClip template canvas d nat
  ⟨v.sizeAt, v.pos, (i : ℚ) * d, d⟩

/-- Lines 27–53: the `for i, img_file in enumerate(image_files)` loop.
A file is `some naturalSize` when `ImageClip` succeeds and `none` when it
raises (the `except` branch logs and `continue`s — note the enumerate
index `i` keeps counting over skipped files). -/
def buildClipsAux (template : String) (canvas : Size) (d : ℚ) :
    ℕ → List (Option Size) → List Clip
  | _, [] => []
  | i, none :: rest => buildClipsAux template canvas d (i + 1) rest
  | i, some nat :: rest =>
      mkClip template canvas d i nat :: buildClipsAux template canvas d (i + 1) rest

/-- The clip list built from the matched files in order. -/
def buildClips (template : String) (canvas : Size) (d : ℚ)
    (files : List (Option Size)) : List Clip :=
  buildClipsAux template canvas d 0 files

/-- Line 55: `CompositeVideoClip([background] + clips)` — the composite's
duration is the largest end time among the background and the clips. -/
def compositeDuration (bg : ℚ) (clips : List Clip) : ℚ :=
  clips.foldl (fun m c => max m (c.start + c.duration)) bg

/-- The timeline handed to the encoder: the image clips, the duration of
the full-length background `ColorClip` (line 24), and the composite
video's duration. -/
structure Timeline where
  clips : List Clip
  backgroundDuration : ℚ
  totalDuration : ℚ

/-- Outcome of the audio inputs the program distinguishes: no `audio_file`
argument, a path failing the `os.path.exists` check, `AudioFileClip`
raising, or a decoded track with its native duration. -/
inductive AudioInput where
  | noFile
  | missing
  | decodeError
  | ok (dur : ℚ)
deriving DecidableEq

/-- Which branch of lines 60–63 produced the attached track. -/
inductive AudioMode where
  | looped
  | trimmed
deriving DecidableEq

/-- Result of the audio stage: the attached track (its reconciliation mode
and final duration), or `none` when the video is left without audio, plus
whether the `except` branch printed its error message. -/
structure AudioResult where
  track : Option (AudioMode × ℚ)
  warned : Bool
deriving DecidableEq

/-- Lines 57–66: skip audio when no file is given or the path does not
exist (no message is printed in either case); on a decode error print the
message and continue without audio; otherwise loop the track to the video
duration when it is shorter (`vfx.loop` with `duration=video.duration`)
and `subclip(0, video.duration)` otherwise. -/
def audioStep (a : AudioInput) (videoDuration : ℚ) : AudioResult :=
  match a with
  | AudioInput.noFile => ⟨none, false⟩
  | AudioInput.missing => ⟨none, false⟩
  | AudioInput.decodeError => ⟨none, true⟩
  | AudioInput.ok dur =>
      if dur < videoDuration then ⟨some (AudioMode.looped, videoDuration), false⟩
      else ⟨some (AudioMode.trimmed, videoDuration), false⟩

/-- Line 16: the suffixes accepted by `f.lower().endswith((...))`. -/
def imageExts : List String := ["png", "jpg", "jpeg", "bmp", "gif"]

/-- Line 16 filter: the lower-cased filename ends with one of the
accepted suffixes. -/
def isImageFile (name : String) : Bool :=
  imageExts.any fun e => e.data.isSuffixOf (name.data.map Char.toLower)

/-- Lexicographic order on character sequences by code point — Python's
string comparison. -/
def lexLe : List Char → List Char → Bool
  | [], _ => true
  | _ :: _, [] => false
  | a :: as, b :: bs =>
      if a.toNat < b.toNat then true
      else if b.toNat < a.toNat then false
      else lexLe as bs

/-- Python string `<=` comparison. -/
def nameLe (a b : String) : Bool := lexLe a.data b.data

/-- Line 17: `image_files.sort()` — ascending lexicographic filename
order. -/
def sortByName (l : List (String × Option Size)) : List (String × Option Size) :=
  List.insertionSort (fun a b => nameLe a.1 b.1 = true) l

/-- Overall outcome of a run: the early `return` of lines 19–21 (before
any timeline exists or the encoder runs), or the timeline and audio result
handed to `write_videofile`. -/
inductive RunResult where
  | noImages
  | encoded (tl : Timeline) (audio : AudioResult)

/-- Lines 16–66 of the program, up to the encoder boundary.  `entries`
models the directory listing as `(filename, decode outcome)` pairs: the
decode outcome is the natural size `ImageClip` would report, or `none`
when decoding raises. -/
def create_video_from_images (entries : List (String × Option Size)) (d : ℚ)
    (template : String) (canvas : Size) (a : AudioInput) : RunResult :=
  let image_files := sortByName (entries.filter fun e => isImageFile e.1)
  if image_files.isEmpty then RunResult.noImages
  else
    let total_duration : ℚ := (image_files.length : ℚ) * d
    let clips := buildClips template canvas d (image_files.map Prod.snd)
    let tl : Timeline := ⟨clips, total_duration, compositeDuration total_duration clips⟩
    RunResult.encoded tl (audioStep a tl.totalDuration)

/-- Whether the run took the lines 19–21 early `return`. -/
def isAborted : RunResult → Bool
  | RunResult.noImages => true
  | RunResult.encoded _ _ => false

/-- The `(startTime, duration)` pairs of the produced clips, when a
timeline was produced. -/
def clipData : RunResult → Option (List (ℚ × ℚ))
  | RunResult.noImages => none
  | RunResult.encoded tl _ => some (tl.clips.map fun c => (c.start, c.duration))

/-- Number of clips in the produced timeline. -/
def clipCount : RunResult → Option ℕ
  | RunResult.noImages => none
  | RunResult.encoded tl _ => some tl.clips.length

/-- Duration of the background layer of the produced timeline. -/
def bgDurOf : RunResult → Option ℚ
  | RunResult.noImages => none
  | RunResult.encoded tl _ => some tl.backgroundDuration

/-- Total duration of the produced timeline. -/
def totalDurOf : RunResult → Option ℚ
  | RunResult.noImages => none
  | RunResult.encoded tl _ => some tl.totalDuration

/-- The audio result of the run, when it reached the audio stage. -/
def audioOf : RunResult → Option AudioResult
  | RunResult.noImages => none
  | RunResult.encoded _ ar => some ar

/-- Batteries' computable floor agrees with the `FloorRing` floor. -/
theorem ratFloor_eq (q : ℚ) : Rat.floor q = ⌊q⌋ := by
  rw [Rat.floor_def', Rat.floor_def]

/-- On nonnegative rationals, Python truncation is the floor. -/
theorem pyInt_eq_floor {q : ℚ} (h : 0 ≤ q) : pyInt q = ⌊q⌋ := by
  rw [pyInt, if_neg (not_lt.2 h), ratFloor_eq]

/-- The explicit Python `min` is the lattice `min`. -/
theorem pymin_eq_min (a b : ℚ) : pymin a b = min a b := (min_def a b).symm

/-- Each clip is scheduled at its matched-file index times the per-image
duration. -/
theorem mkClip_start (template : String) (canvas : Size) (d : ℚ) (i : ℕ) (nat : Size) :
    (mkClip template canvas d i nat).start = (i : ℚ) * d := rfl

/-- Each clip lasts exactly the per-image duration. -/
theorem mkClip_duration (template : String) (canvas : Size) (d : ℚ) (i : ℕ) (nat : Size) :
    (mkClip template canvas d i nat).duration = d := rfl

/-- The loop produces one clip per successfully decoded file. -/
theorem buildClipsAux_length (template : String) (canvas : Size) (d : ℚ) :
    ∀ (i : ℕ) (files : List (Option Size)),
      (buildClipsAux template canvas d i files).length = files.countP Option.isSome
  | _, [] => rfl
  | i, none :: rest => by
      simp [buildClipsAux, List.countP_cons,
        buildClipsAux_length template canvas d (i + 1) rest]
  | i, some nat :: rest => by
      simp [buildClipsAux, List.countP_cons,
        buildClipsAux_length template canvas d (i + 1) rest]

/-- Every clip the loop produces ends no later than `(i + #files) * d`. -/
theorem buildClipsAux_end_le (template : String) (canvas : Size) {d : ℚ} (hd : 0 ≤ d) :
    ∀ (i : ℕ) (files : List (Option Size)),
      ∀ c ∈ buildClipsAux template canvas d i files,
        c.start + c.duration ≤ ((i + files.length : ℕ) : ℚ) * d
  | i, [], c, hc => by cases hc
  | i, none :: rest, c, hc => by
      have h := buildClipsAux_end_le template canvas hd (i + 1) rest c hc
      have harith : (i + 1 + rest.length : ℕ) = (i + (none :: rest : List (Option Size)).length : ℕ) := by
        simp; omega
      rwa [harith] at h
  | i, some nat :: rest, c, hc => by
      rcases List.mem_cons.1 hc with hc | hc
      · subst hc
        rw [mkClip_start, mkClip_duration]
        have hle : ((i : ℚ) + 1) ≤ ((i + (some nat :: rest : List (Option Size)).length : ℕ) : ℚ) := by
          push_cast [List.length_cons]
          have : (0 : ℚ) ≤ rest.length := by positivity
          linarith
        calc (i : ℚ) * d + d = ((i : ℚ) + 1) * d := by ring
          _ ≤ ((i + (some nat :: rest : List (Option Size)).length : ℕ) : ℚ) * d :=
              mul_le_mul_of_nonneg_right hle hd
      · have h := buildClipsAux_end_le template canvas hd (i + 1) rest c hc
        have harith : (i + 1 + rest.length : ℕ) = (i + (some nat :: rest : List (Option Size)).length : ℕ) := by
          simp; omega
        rwa [harith] at h

/-- Unfolding step of the composite-duration fold. -/
theorem compositeDuration_cons (bg : ℚ) (c : Clip) (l : List Clip) :
    compositeDuration bg (c :: l) = compositeDuration (max bg (c.start + c.duration)) l := rfl

/-- When every clip ends by `bg`, the composite duration is `bg` —
the background layer is the longest layer. -/
theorem compositeDuration_eq_of_le :
    ∀ (bg : ℚ) (clips : List Clip), (∀ c ∈ clips, c.start + c.duration ≤ bg) →
      compositeDuration bg clips = bg
  | bg, [], _ => rfl
  | bg, c :: rest, h => by
      rw [compositeDuration_cons, max_eq_left (h c (List.mem_cons_self c rest))]
      exact compositeDuration_eq_of_le bg rest fun x hx => h x (List.mem_cons_of_mem c hx)

/-- When every file decodes, the loop yields the clip schedule
`(start, duration) = ((i + j) * d, d)` for `j` ranging over the files. -/
theorem buildClipsAux_map_all_some (template : String) (canvas : Size) (d : ℚ) :
    ∀ (i : ℕ) (files : List (Option Size)), (∀ x ∈ files, x.isSome = true) →
      (buildClipsAux template canvas d i files).map (fun c => (c.start, c.duration))
        = (List.range files.length).map (fun j => (((i + j : ℕ) : ℚ) * d, d))
  | i, [], _ => rfl
  | i, none :: rest, hall => by
      have := hall none (List.mem_cons_self _ _)
      simp at this
  | i, some nat :: rest, hall => by
      have ih := buildClipsAux_map_all_some template canvas d (i + 1) rest
        (fun x hx => hall x (List.mem_cons_of_mem _ hx))
      simp only [buildClipsAux, List.map_cons, List.length_cons, ih,
        List.range_succ_eq_map, List.map_map]
      congr 1
      apply List.map_congr_left
      intro j _
      simp only [Function.comp_apply]
      have : i + 1 + j = i + Nat.succ j := by omega
      rw [this]

/-- The sort is a permutation of its input. -/
theorem sortByName_perm (l : List (String × Option Size)) :
    List.Perm (sortByName l) l :=
  List.perm_insertionSort _ l

/-- Sorting preserves emptiness. -/
theorem sortByName_isEmpty (l : List (String × Option Size)) :
    (sortByName l).isEmpty = l.isEmpty := by
  by_cases hl : l = []
  · rw [hl]; rfl
  · have hs : sortByName l ≠ [] := by
      intro h
      have hp := sortByName_perm l
      rw [h] at hp
      exact hl hp.symm.eq_nil
    have h1 : (sortByName l).isEmpty = false :=
      Bool.eq_false_iff.2 fun ht => hs (List.isEmpty_iff.1 ht)
    have h2 : l.isEmpty = false :=
      Bool.eq_false_iff.2 fun ht => hl (List.isEmpty_iff.1 ht)
    rw [h1, h2]

/-- The overall run aborts exactly when the sorted matched-file list is
empty. -/
theorem isAborted_create (entries : List (String × Option Size)) (d : ℚ)
    (template : String) (canvas : Size) (a : AudioInput) :
    isAborted (create_video_from_images entries d template canvas a)
      = (sortByName (entries.filter fun e => isImageFile e.1)).isEmpty := by
  rw [create_video_from_images]
  by_cases h : (sortByName (entries.filter fun e => isImageFile e.1)).isEmpty
  · simp [h, isAborted]
  · simp only [Bool.not_eq_true] at h
    simp [h, isAborted]

/-- Claim C3: for the zoom template with positive clip duration, the scale
factor at local time `t` is `0.8 + 0.4 * (t / clipDuration)`; it is `0.8`
at `t = 0`, `1.2` at `t = clipDuration`, and strictly increasing on
`[0, clipDuration]`. -/
theorem zoom_factor_linear (d : ℚ) (hd : 0 < d) :
    zoom_factor d 0 = 0.8 ∧ zoom_factor d d = 1.2 ∧
    ∀ s t : ℚ, 0 ≤ s → s < t → t ≤ d → zoom_factor d s < zoom_factor d t := by
  refine ⟨by norm_num [zoom_factor], ?_, ?_⟩
  · rw [zoom_factor, div_self (ne_of_gt hd)]
    norm_num
  · intro s t _ hst _
    rw [zoom_factor, zoom_factor]
    have h : s / d < t / d := by gcongr
    linarith

/-- Witness for C3 at `clipDuration = 5`. -/
theorem zoom_factor_linear_witness :
    0 < (5 : ℚ) ∧
    (zoom_factor 5 0 = 0.8 ∧ zoom_factor 5 5 = 1.2 ∧
      ∀ s t : ℚ, 0 ≤ s → s < t → t ≤ 5 → zoom_factor 5 s < zoom_factor 5 t) :=
  ⟨by norm_num, zoom_factor_linear 5 (by norm_num)⟩

/-- Claim C7: an audio track shorter than the video duration is looped to
exactly that duration; a track at least as long is trimmed to
`[0, totalDuration)`. -/
theorem audio_reconcile_loop_or_trim (dur T : ℚ) :
    (dur < T → audioStep (AudioInput.ok dur) T = ⟨some (AudioMode.looped, T), false⟩) ∧
    (T ≤ dur → audioStep (AudioInput.ok dur) T = ⟨some (AudioMode.trimmed, T), false⟩) := by
  constructor
  · intro h
    simp [audioStep, h]
  · intro h
    simp [audioStep, not_lt.2 h]

/-- Witness for C7: a 4s track against a 10s video loops; a 12s track
against a 10s video trims. -/
theorem audio_reconcile_loop_or_trim_witness :
    ((4 : ℚ) < 10 ∧ audioStep (AudioInput.ok 4) 10 = ⟨some (AudioMode.looped, 10), false⟩) ∧
    ((10 : ℚ) ≤ 12 ∧ audioStep (AudioInput.ok 12) 10 = ⟨some (AudioMode.trimmed, 10), false⟩) :=
  ⟨⟨by norm_num, (audio_reconcile_loop_or_trim 4 10).1 (by norm_num)⟩,
   ⟨by norm_num, (audio_reconcile_loop_or_trim 12 10).2 (by norm_num)⟩⟩

/-- Claim C8 (amended): an audio decode error prints the error message and the
run proceeds without an audio track; a missing audio path also proceeds
without audio but prints nothing; the abort decision of the whole run
never depends on the audio input. -/
theorem audio_failure_recoverable :
    (∀ T : ℚ, audioStep AudioInput.decodeError T = ⟨none, true⟩ ∧
      audioStep AudioInput.missing T = ⟨none, false⟩) ∧
    (∀ (entries : List (String × Option Size)) (d : ℚ) (template : String)
      (canvas : Size) (a : AudioInput),
      isAborted (create_video_from_images entries d template canvas a) =
        isAborted (create_video_from_images entries d template canvas AudioInput.noFile)) := by
  constructor
  · intro T
    exact ⟨rfl, rfl⟩
  · intro entries d template canvas a
    rw [isAborted_create, isAborted_create]

/-- Claim C8 counterexample: with an audio path that does not pass the
`os.path.exists` check the run proceeds silently with no audio and emits
no warning, contradicting the claim that every audio failure produces a
warning. -/
theorem missing_audio_no_warning :
    (audioStep AudioInput.missing 10).warned = false ∧
    (audioStep AudioInput.missing 10).track = none ∧
    isAborted (create_video_from_images [("a.png", some ⟨800, 600⟩)] 3 "slide_in"
      ⟨1920, 1080⟩ AudioInput.missing) = false := by
  exact ⟨rfl, rfl, by decide⟩

/-- Claim C9 (amended): any template other than `"zoom"` resolves without
failure to the static transform — the clip shows the image at its
scale-to-fit size, unchanged for every local time, for the full per-image
duration — but at the moviepy default top-left position, not centered. -/
theorem non_zoom_template_static (template : String) (h : template ≠ "zoom")
    (canvas : Size) (d : ℚ) (i : ℕ) (nat : Size) :
    (mkClip template canvas d i nat).pos = Pos.topLeft ∧
    (mkClip template canvas d i nat).duration = d ∧
    ∀ t : ℚ, (mkClip template canvas d i nat).sizeAt t
      = (((fit nat canvas).w : ℚ), ((fit nat canvas).h : ℚ)) := by
  have hb : (template == "zoom") = false := beq_eq_false_iff_ne.2 h
  refine ⟨?_, rfl, fun t => ?_⟩ <;>
    simp [mkClip, mkVClip, hb, resizeTo, imageClip]

/-- Witness for C9 at the unknown template identifier `"custom"`. -/
theorem non_zoom_template_static_witness :
    "custom" ≠ "zoom" ∧
    ((mkClip "custom" ⟨1920, 1080⟩ 3 0 ⟨800, 600⟩).pos = Pos.topLeft ∧
     (mkClip "custom" ⟨1920, 1080⟩ 3 0 ⟨800, 600⟩).duration = 3 ∧
     ∀ t : ℚ, (mkClip "custom" ⟨1920, 1080⟩ 3 0 ⟨800, 600⟩).sizeAt t
       = (((fit ⟨800, 600⟩ ⟨1920, 1080⟩).w : ℚ), ((fit ⟨800, 600⟩ ⟨1920, 1080⟩).h : ℚ))) :=
  ⟨by decide, non_zoom_template_static "custom" (by decide) ⟨1920, 1080⟩ 3 0 ⟨800, 600⟩⟩

/-- Claim C9 counterexample: a non-zoom clip sits at the default top-left
position — the claimed centering does not hold. -/
theorem non_zoom_clip_not_centered :
    (mkClip "custom" ⟨1920, 1080⟩ 3 0 ⟨800, 600⟩).pos = Pos.topLeft ∧
    Pos.topLeft ≠ Pos.center := by
  constructor
  · simp [mkClip, mkVClip, resizeTo, imageClip]
  · decide

/-- Claim C2: evaluating the zoom pipeline of lines 41–48 on a concrete input
(natural size 800×600, canvas 1920×1080, per-image duration 5).  The
fitted size is 1440×1080 and the allocation `display_size` is its 1.2
multiple 1728×1296 with the image centered, as claimed; but the second,
fixed-size `resize` forces every frame to 1728×1296, so the displayed
size is constant over the whole clip — at `t = 0` it is not the claimed
`0.8 ×` fitted size (1152×864).  The time-varying factor is also applied
to the natural size (640×480 at `t = 0`), not to the fitted size, before
being overridden. -/
theorem zoom_display_size_constant_bug :
    fit ⟨800, 600⟩ ⟨1920, 1080⟩ = ⟨1440, 1080⟩ ∧
    (mkVClip "zoom" ⟨1920, 1080⟩ 5 ⟨800, 600⟩).pos = Pos.center ∧
    (mkVClip "zoom" ⟨1920, 1080⟩ 5 ⟨800, 600⟩).sizeAt 0 = (1728, 1296) ∧
    (mkVClip "zoom" ⟨1920, 1080⟩ 5 ⟨800, 600⟩).sizeAt (5 / 2) = (1728, 1296) ∧
    (mkVClip "zoom" ⟨1920, 1080⟩ 5 ⟨800, 600⟩).sizeAt 5 = (1728, 1296) ∧
    (resizeBy (imageClip ⟨800, 600⟩) (zoom_factor 5)).sizeAt 0 = (640, 480) ∧
    (mkVClip "zoom" ⟨1920, 1080⟩ 5 ⟨800, 600⟩).sizeAt 0 ≠ (0.8 * 1440, 0.8 * 1080) := by
  have hfit : fit ⟨800, 600⟩ ⟨1920, 1080⟩ = ⟨1440, 1080⟩ := by
    norm_num [fit, fitScale, pymin, pyInt, ratFloor_eq]
  refine ⟨hfit, ?_, ?_, ?_, ?_, ?_, ?_⟩ <;>
    norm_num [mkVClip, hfit, pyInt, ratFloor_eq, resizeTo, resizeBy,
      setPosition, imageClip, zoom_factor, Prod.ext_iff]

/-- Claim C4: `fit` scales the natural size uniformly by
`min(canvasW/naturalW, canvasH/naturalH)` and truncates each dimension;
both results are bounded by the canvas, and the cross-products of the
result and the natural size differ by less than one pixel unit in either
direction (aspect ratio preserved within rounding tolerance). -/
theorem fit_scale_to_fit (nat canvas : Size) (hw : 0 < nat.w) (hh : 0 < nat.h)
    (hcw : 0 < canvas.w) (hch : 0 < canvas.h) :
    (fit nat canvas).w = ⌊(nat.w : ℚ) * fitScale nat canvas⌋ ∧
    (fit nat canvas).h = ⌊(nat.h : ℚ) * fitScale nat canvas⌋ ∧
    (fit nat canvas).w ≤ canvas.w ∧
    (fit nat canvas).h ≤ canvas.h ∧
    -nat.h < (fit nat canvas).w * nat.h - (fit nat canvas).h * nat.w ∧
    (fit nat canvas).w * nat.h - (fit nat canvas).h * nat.w < nat.w := by
  have hwq : (0 : ℚ) < (nat.w : ℚ) := by exact_mod_cast hw
  have hhq : (0 : ℚ) < (nat.h : ℚ) := by exact_mod_cast hh
  have hcwq : (0 : ℚ) < (canvas.w : ℚ) := by exact_mod_cast hcw
  have hchq : (0 : ℚ) < (canvas.h : ℚ) := by exact_mod_cast hch
  have hr0 : 0 ≤ fitScale nat canvas := by
    rw [fitScale, pymin_eq_min]
    exact le_min (div_nonneg hcwq.le hwq.le) (div_nonneg hchq.le hhq.le)
  set r := fitScale nat canvas with hrdef
  have hfw : (fit nat canvas).w = ⌊(nat.w : ℚ) * r⌋ := by
    simp only [fit]
    exact pyInt_eq_floor (mul_nonneg hwq.le hr0)
  have hfh : (fit nat canvas).h = ⌊(nat.h : ℚ) * r⌋ := by
    simp only [fit]
    exact pyInt_eq_floor (mul_nonneg hhq.le hr0)
  have hrw : r ≤ (canvas.w : ℚ) / (nat.w : ℚ) := by
    rw [hrdef, fitScale, pymin_eq_min]
    exact min_le_left _ _
  have hrh : r ≤ (canvas.h : ℚ) / (nat.h : ℚ) := by
    rw [hrdef, fitScale, pymin_eq_min]
    exact min_le_right _ _
  have hwcancel : (nat.w : ℚ) * ((canvas.w : ℚ) / (nat.w : ℚ)) = (canvas.w : ℚ) := by
    field_simp
  have hhcancel : (nat.h : ℚ) * ((canvas.h : ℚ) / (nat.h : ℚ)) = (canvas.h : ℚ) := by
    field_simp
  have hwle : (nat.w : ℚ) * r ≤ (canvas.w : ℚ) := by
    have := mul_le_mul_of_nonneg_left hrw hwq.le
    rwa [hwcancel] at this
  have hhle : (nat.h : ℚ) * r ≤ (canvas.h : ℚ) := by
    have := mul_le_mul_of_nonneg_left hrh hhq.le
    rwa [hhcancel] at this
  have hwb : (fit nat canvas).w ≤ canvas.w := by
    rw [hfw]
    calc ⌊(nat.w : ℚ) * r⌋ ≤ ⌊(canvas.w : ℚ)⌋ := Int.floor_le_floor hwle
      _ = canvas.w := Int.floor_intCast _
  have hhb : (fit nat canvas).h ≤ canvas.h := by
    rw [hfh]
    calc ⌊(nat.h : ℚ) * r⌋ ≤ ⌊(canvas.h : ℚ)⌋ := Int.floor_le_floor hhle
      _ = canvas.h := Int.floor_intCast _
  have ha1 : (((fit nat canvas).w : ℤ) : ℚ) ≤ (nat.w : ℚ) * r := by
    rw [hfw]
    exact Int.floor_le _
  have ha2 : (nat.w : ℚ) * r - 1 < (((fit nat canvas).w : ℤ) : ℚ) := by
    rw [hfw]
    exact Int.sub_one_lt_floor _
  have hb1 : (((fit nat canvas).h : ℤ) : ℚ) ≤ (nat.h : ℚ) * r := by
    rw [hfh]
    exact Int.floor_le _
  have hb2 : (nat.h : ℚ) * r - 1 < (((fit nat canvas).h : ℤ) : ℚ) := by
    rw [hfh]
    exact Int.sub_one_lt_floor _
  have hring : (nat.w : ℚ) * r * (nat.h : ℚ) = (nat.h : ℚ) * r * (nat.w : ℚ) := by ring
  have hupper : (((fit nat canvas).w : ℤ) : ℚ) * (nat.h : ℚ)
      - (((fit nat canvas).h : ℤ) : ℚ) * (nat.w : ℚ) < (nat.w : ℚ) := by
    have p1 := mul_le_mul_of_nonneg_right ha1 hhq.le
    have p2 := mul_lt_mul_of_pos_right hb2 hwq
    nlinarith [p1, p2, hring]
  have hlower : -(nat.h : ℚ) < (((fit nat canvas).w : ℤ) : ℚ) * (nat.h : ℚ)
      - (((fit nat canvas).h : ℤ) : ℚ) * (nat.w : ℚ) := by
    have p3 := mul_le_mul_of_nonneg_right hb1 hwq.le
    have p4 := mul_lt_mul_of_pos_right ha2 hhq
    nlinarith [p3, p4, hring]
  refine ⟨hfw, hfh, hwb, hhb, ?_, ?_⟩
  · exact_mod_cast hlower
  · exact_mod_cast hupper

/-- Witness for C4 at natural size 800×600 on a 1920×1080 canvas. -/
theorem fit_scale_to_fit_witness :
    0 < (Size.mk 800 600).w ∧ 0 < (Size.mk 800 600).h ∧
    0 < (Size.mk 1920 1080).w ∧ 0 < (Size.mk 1920 1080).h ∧
    ((fit ⟨800, 600⟩ ⟨1920, 1080⟩).w = ⌊((Size.mk 800 600).w : ℚ) * fitScale ⟨800, 600⟩ ⟨1920, 1080⟩⌋ ∧
     (fit ⟨800, 600⟩ ⟨1920, 1080⟩).h = ⌊((Size.mk 800 600).h : ℚ) * fitScale ⟨800, 600⟩ ⟨1920, 1080⟩⌋ ∧
     (fit ⟨800, 600⟩ ⟨1920, 1080⟩).w ≤ (Size.mk 1920 1080).w ∧
     (fit ⟨800, 600⟩ ⟨1920, 1080⟩).h ≤ (Size.mk 1920 1080).h ∧
     -(Size.mk 800 600).h <
        (fit ⟨800, 600⟩ ⟨1920, 1080⟩).w * (Size.mk 800 600).h
          - (fit ⟨800, 600⟩ ⟨1920, 1080⟩).h * (Size.mk 800 600).w ∧
     (fit ⟨800, 600⟩ ⟨1920, 1080⟩).w * (Size.mk 800 600).h
          - (fit ⟨800, 600⟩ ⟨1920, 1080⟩).h * (Size.mk 800 600).w < (Size.mk 800 600).w) :=
  ⟨by decide, by decide, by decide, by decide,
   fit_scale_to_fit ⟨800, 600⟩ ⟨1920, 1080⟩ (by decide) (by decide) (by decide) (by decide)⟩

/-- Claim C6: a decode failure only skips the failing asset — the clip list has
one clip per surviving asset; in particular five matched files of which
exactly one fails to decode yield exactly four clips. -/
theorem decode_failure_skips_asset :
    (∀ (template : String) (canvas : Size) (d : ℚ) (files : List (Option Size)),
      (buildClips template canvas d files).length = files.countP Option.isSome) ∧
    (buildClips "zoom" ⟨1920, 1080⟩ 3
      [some ⟨800, 600⟩, some ⟨640, 480⟩, none, some ⟨1024, 768⟩, some ⟨500, 500⟩]).length = 4 := by
  constructor
  · intro template canvas d files
    rw [buildClips, buildClipsAux_length]
  · decide

/-- Claim C1 (amended): when every matched file decodes, the `i`-th clip starts
at `i * d` with duration `d`, consecutive clips abut with no gap or
overlap, and the composite duration equals `n * d`.  (With a decode
failure the indexing is over matched files, not survivors — see the
counterexample.) -/
theorem timeline_contiguous_when_all_decode (template : String) (canvas : Size)
    (d : ℚ) (files : List (Option Size)) (hd : 0 < d)
    (hall : ∀ x ∈ files, x.isSome = true) :
    (buildClips template canvas d files).length = files.length ∧
    (∀ j (hj : j < (buildClips template canvas d files).length),
      ((buildClips template canvas d files).get ⟨j, hj⟩).start = (j : ℚ) * d ∧
      ((buildClips template canvas d files).get ⟨j, hj⟩).duration = d) ∧
    (∀ j (hj : j + 1 < (buildClips template canvas d files).length),
      ((buildClips template canvas d files).get ⟨j, Nat.lt_of_succ_lt hj⟩).start +
        ((buildClips template canvas d files).get ⟨j, Nat.lt_of_succ_lt hj⟩).duration =
      ((buildClips template canvas d files).get ⟨j + 1, hj⟩).start) ∧
    compositeDuration ((files.length : ℚ) * d) (buildClips template canvas d files)
      = (files.length : ℚ) * d := by
  have hmap0 : (buildClips template canvas d files).map (fun c => (c.start, c.duration))
      = (List.range files.length).map (fun j : ℕ => ((j : ℚ) * d, d)) := by
    rw [buildClips, buildClipsAux_map_all_some template canvas d 0 files hall]
    apply List.map_congr_left
    intro j _
    simp
  have hlen : (buildClips template canvas d files).length = files.length := by
    have h := congrArg List.length hmap0
    simpa using h
  have hget : ∀ j (hj : j < (buildClips template canvas d files).length),
      ((buildClips template canvas d files).get ⟨j, hj⟩).start = (j : ℚ) * d ∧
      ((buildClips template canvas d files).get ⟨j, hj⟩).duration = d := by
    intro j hj
    have hjn : j < files.length := hlen ▸ hj
    have h1 := congrArg (fun l => l.get? j) hmap0
    simp only [List.get?_map] at h1
    rw [List.get?_eq_get hj, List.get?_range hjn] at h1
    simp only [Option.map_some', Option.some_inj, Prod.mk.injEq] at h1
    exact h1
  refine ⟨hlen, hget, ?_, ?_⟩
  · intro j hj
    have h1 := hget j (Nat.lt_of_succ_lt hj)
    have h2 := hget (j + 1) hj
    rw [h1.1, h1.2, h2.1]
    push_cast
    ring
  · apply compositeDuration_eq_of_le
    intro c hc
    have h := buildClipsAux_end_le template canvas hd.le 0 files c hc
    simpa using h

/-- Witness for C1 with two decoded files at `d = 2`. -/
theorem timeline_contiguous_when_all_decode_witness :
    0 < (2 : ℚ) ∧
    (∀ x ∈ [some (Size.mk 800 600), some (Size.mk 640 480)], x.isSome = true) ∧
    ((buildClips "slide_in" ⟨1920, 1080⟩ 2 [some ⟨800, 600⟩, some ⟨640, 480⟩]).length
        = ([some (Size.mk 800 600), some (Size.mk 640 480)] : List (Option Size)).length ∧
     (∀ j (hj : j < (buildClips "slide_in" ⟨1920, 1080⟩ 2 [some ⟨800, 600⟩, some ⟨640, 480⟩]).length),
       ((buildClips "slide_in" ⟨1920, 1080⟩ 2 [some ⟨800, 600⟩, some ⟨640, 480⟩]).get ⟨j, hj⟩).start = (j : ℚ) * 2 ∧
       ((buildClips "slide_in" ⟨1920, 1080⟩ 2 [some ⟨800, 600⟩, some ⟨640, 480⟩]).get ⟨j, hj⟩).duration = 2) ∧
     (∀ j (hj : j + 1 < (buildClips "slide_in" ⟨1920, 1080⟩ 2 [some ⟨800, 600⟩, some ⟨640, 480⟩]).length),
       ((buildClips "slide_in" ⟨1920, 1080⟩ 2 [some ⟨800, 600⟩, some ⟨640, 480⟩]).get ⟨j, Nat.lt_of_succ_lt hj⟩).start +
         ((buildClips "slide_in" ⟨1920, 1080⟩ 2 [some ⟨800, 600⟩, some ⟨640, 480⟩]).get ⟨j, Nat.lt_of_succ_lt hj⟩).duration =
       ((buildClips "slide_in" ⟨1920, 1080⟩ 2 [some ⟨800, 600⟩, some ⟨640, 480⟩]).get ⟨j + 1, hj⟩).start) ∧
     compositeDuration ((([some (Size.mk 800 600), some (Size.mk 640 480)] : List (Option Size)).length : ℚ) * 2)
        (buildClips "slide_in" ⟨1920, 1080⟩ 2 [some ⟨800, 600⟩, some ⟨640, 480⟩])
       = (([some (Size.mk 800 600), some (Size.mk 640 480)] : List (Option Size)).length : ℚ) * 2) :=
  ⟨by norm_num, by decide,
   timeline_contiguous_when_all_decode "slide_in" ⟨1920, 1080⟩ 2
     [some ⟨800, 600⟩, some ⟨640, 480⟩] (by norm_num) (by decide)⟩

/-- Claim C1 counterexample: two matched files of which the first fails to
decode.  The single surviving clip starts at `1 * d = 2`, not at
`0 * d = 0`, leaving a gap over `[0, 2)`, and the total duration is
`2 * d = 4`, not `(surviving) * d = 2` — the claim's indexing over
surviving assets is refuted. -/
theorem timeline_gap_under_decode_failure :
    ((buildClips "slide_in" ⟨1920, 1080⟩ 2 [none, some ⟨100, 100⟩]).map
        fun c => (c.start, c.duration)) = [(2, 2)] ∧
    (2 : ℚ) ≠ 0 * 2 ∧
    compositeDuration ((2 : ℚ) * 2) (buildClips "slide_in" ⟨1920, 1080⟩ 2 [none, some ⟨100, 100⟩]) = 4 ∧
    (4 : ℚ) ≠ 1 * 2 ∧
    totalDurOf (create_video_from_images [("a.png", none), ("b.png", some ⟨100, 100⟩)] 2
      "slide_in" ⟨1920, 1080⟩ AudioInput.noFile) = some 4 ∧
    clipData (create_video_from_images [("a.png", none), ("b.png", some ⟨100, 100⟩)] 2
      "slide_in" ⟨1920, 1080⟩ AudioInput.noFile) = some [(2, 2)] := by
  refine ⟨?_, by norm_num, ?_, by norm_num, ?_, ?_⟩
  · simp [buildClips, buildClipsAux, mkClip, mkVClip]
  · simp [buildClips, buildClipsAux, mkClip, mkVClip, compositeDuration]
    norm_num
  · simp [create_video_from_images, sortByName, List.insertionSort, List.orderedInsert,
      isImageFile, imageExts, totalDurOf, buildClips, buildClipsAux, mkClip, mkVClip,
      compositeDuration, nameLe, lexLe]
    norm_num
  · simp [create_video_from_images, sortByName, List.insertionSort, List.orderedInsert,
      isImageFile, imageExts, clipData, buildClips, buildClipsAux, mkClip, mkVClip,
      compositeDuration, nameLe, lexLe]

/-- Claim C5 (amended): the run aborts — before any timeline exists and before
the encoder is invoked — exactly when zero directory entries match the
image-extension filter.  (Zero surviving decodes with a non-empty matched
list does not abort — see the counterexample.) -/
theorem abort_iff_no_matched_files (entries : List (String × Option Size)) (d : ℚ)
    (template : String) (canvas : Size) (a : AudioInput) :
    isAborted (create_video_from_images entries d template canvas a)
      = (entries.filter fun e => isImageFile e.1).isEmpty := by
  rw [isAborted_create, sortByName_isEmpty]

/-- Claim C5 counterexample: one matched file that fails to decode — zero
assets survive, yet the run is not aborted: it proceeds to encode a
timeline with zero clips. -/
theorem all_decode_failures_still_encode :
    isAborted (create_video_from_images [("a.png", none)] 3 "slide_in" ⟨1920, 1080⟩
      AudioInput.noFile) = false ∧
    clipCount (create_video_from_images [("a.png", none)] 3 "slide_in" ⟨1920, 1080⟩
      AudioInput.noFile) = some 0 := by
  decide

/-- Claim C10: the background layer's duration and the composite video's total
duration both equal (number of extension-matched files) × `d`, a count
taken before any decode is attempted, while the clip count equals the
number of survivors — decode failures shrink the clip list but never the
video. -/
theorem video_duration_from_matched_count (entries : List (String × Option Size))
    (d : ℚ) (template : String) (canvas : Size) (a : AudioInput)
    (hd : 0 < d) (hne : entries.filter (fun e => isImageFile e.1) ≠ []) :
    bgDurOf (create_video_from_images entries d template canvas a)
      = some (((entries.filter fun e => isImageFile e.1).length : ℚ) * d) ∧
    totalDurOf (create_video_from_images entries d template canvas a)
      = some (((entries.filter fun e => isImageFile e.1).length : ℚ) * d) ∧
    clipCount (create_video_from_images entries d template canvas a)
      = some ((entries.filter fun e => isImageFile e.1).countP fun e => e.2.isSome) := by
  simp only [create_video_from_images]
  set l := entries.filter fun e => isImageFile e.1 with hl
  set s := sortByName l with hs
  have hperm : List.Perm s l := sortByName_perm l
  have hlen : s.length = l.length := hperm.length_eq
  have hne2 : s.isEmpty = false := by
    rw [hs, sortByName_isEmpty]
    exact Bool.eq_false_iff.2 fun ht => hne (List.isEmpty_iff.1 ht)
  rw [if_neg (by simp [hne2])]
  have hcd : compositeDuration ((s.length : ℚ) * d)
      (buildClips template canvas d (s.map Prod.snd)) = (s.length : ℚ) * d := by
    apply compositeDuration_eq_of_le
    intro c hc
    have h := buildClipsAux_end_le template canvas hd.le 0 (s.map Prod.snd) c hc
    simpa [List.length_map] using h
  refine ⟨?_, ?_, ?_⟩
  · simp only [bgDurOf, hlen]
  · simp only [totalDurOf]
    rw [hcd, hlen]
  · simp only [clipCount, buildClips, buildClipsAux_length, List.countP_map]
    rw [Option.some_inj]
    exact hperm.countP_eq _

/-- Witness for C10 with three directory entries: two matched files (one
failing to decode) and one filtered-out text file, at `d = 2`. -/
theorem video_duration_from_matched_count_witness :
    0 < (2 : ℚ) ∧
    ([("b.png", some (Size.mk 800 600)), ("a.jpg", none), ("notes.txt", some (Size.mk 10 10))].filter
      (fun e => isImageFile e.1) ≠ []) ∧
    (bgDurOf (create_video_from_images
        [("b.png", some ⟨800, 600⟩), ("a.jpg", none), ("notes.txt", some ⟨10, 10⟩)] 2
        "zoom" ⟨1920, 1080⟩ AudioInput.noFile)
      = some ((([("b.png", some (Size.mk 800 600)), ("a.jpg", none), ("notes.txt", some (Size.mk 10 10))].filter
          (fun e => isImageFile e.1)).length : ℚ) * 2) ∧
     totalDurOf (create_video_from_images
        [("b.png", some ⟨800, 600⟩), ("a.jpg", none), ("notes.txt", some ⟨10, 10⟩)] 2
        "zoom" ⟨1920, 1080⟩ AudioInput.noFile)
      = some ((([("b.png", some (Size.mk 800 600)), ("a.jpg", none), ("notes.txt", some (Size.mk 10 10))].filter
          (fun e => isImageFile e.1)).length : ℚ) * 2) ∧
     clipCount (create_video_from_images
        [("b.png", some ⟨800, 600⟩), ("a.jpg", none), ("notes.txt", some ⟨10, 10⟩)] 2
        "zoom" ⟨1920, 1080⟩ AudioInput.noFile)
      = some (([("b.png", some (Size.mk 800 600)), ("a.jpg", none), ("notes.txt", some (Size.mk 10 10))].filter
          (fun e => isImageFile e.1)).countP fun e => e.2.isSome)) :=
  ⟨by norm_num, by decide,
   video_duration_from_matched_count
     [("b.png", some ⟨800, 600⟩), ("a.jpg", none), ("notes.txt", some ⟨10, 10⟩)] 2
     "zoom" ⟨1920, 1080⟩ AudioInput.noFile (by norm_num) (by decide)⟩

end ImageToVideo
